import Mathlib

/-!
Shallow embedding of the borrow-or-expose crate (src/lib.rs).

The crate defines two traits:

- `Bos<T>` (lib.rs lines 215-226): an implementer B declares a
  lifetime-indexed family `type Ref : internal Ref of T` (indexed by a lifetime) and a method
  `borrow_or_share` taking a reference to Self.
- `BorrowOrShare` at lifetimes i, o and target T (lines 231-247): a blanket adapter implemented
  for every B implementing Bos of T and outliving i, with the member of
  the Ref family at index i outliving o, whose method body is
  the raw call followed by `.cast()`.

Lifetimes are modelled as natural numbers: a numerically larger lifetime
denotes a longer span, so the Rust outlives-bound of x over y becomes `y ≤ x`.
A Rust shared reference value `&T` is modelled as a record carrying the
address it points at together with the pointed-at content, so equality of
two modelled references is exactly the spec notion "equal by address and
by content".

Each Rust `impl Bos<T> for B` is modelled as a value of the Lean structure
`BosImpl B T` recording:
- `refLt`: the lifetime of the associated type `Ref` as a function
  of the lifetime index at which it is instantiated (for the shared-reference impl at lines
  249-256 it is the constant function returning the lifetime parameter a
  of the implementer; for every impl generated by the `impl_bos!` macro at
  lines 258-272 it is the identity, since there the Ref member at any
  index is the shared reference to Target at that same index);
- `okAt`: the set of lifetimes i for which the implementer type satisfies
  the bound that B outlives i (decidable, as Rust borrow checking is);
- `bos`: the value-level method, a pure function from the access reference
  to the produced reference, translated from each impl body (every body in
  the crate is the single expression `this`, to which the Rust compiler
  applies a deref or unsize coercion determined by the implementer type).
-/

namespace BorrowOrExpose

/-- Model of a Rust shared reference value of target type τ: the address it
points at together with the pointed-at content. Two modelled references are
equal exactly when they agree on address and on content. -/
structure RRef (τ : Type) where
  addr : Nat
  content : τ
deriving DecidableEq, Repr

/-- Model of one Rust `impl Bos<T> for B` (trait at lib.rs lines 215-226).
`refLt i` is the lifetime of the associated type `Ref` at index i, `okAt i`
decides the bound that B outlives i, and `bos` is the method
`borrow_or_share` taking a reference to Self. -/
structure BosImpl (B τ : Type) where
  refLt : Nat → Nat
  okAt : Nat → Bool
  bos : RRef B → RRef τ

/-- Model of `internal::Ref::cast` for `&T` (lib.rs lines 183-191): the body
is `self`, so the cast is the identity on the reference value; only its
declared lifetime changes, which has no value-level representation. -/
def refCast {τ : Type} (r : RRef τ) : RRef τ := r

/-- Availability of the blanket `BorrowOrShare` impl (lib.rs lines
238-242) at lifetimes i and o: the where-clauses are that B outlives i
(modelled by `okAt i`) and that the Ref member at index i outlives o;
since that member is a shared reference with
lifetime `refLt i` to a target without lifetimes, the latter bound holds
exactly when o ≤ refLt i. -/
def BosImpl.avail {B τ : Type} (e : BosImpl B τ) (i o : Nat) : Bool :=
  e.okAt i && decide (o ≤ e.refLt i)

/-- Model of the blanket adapter method body
the raw `borrow_or_share` call followed by `.cast()` (lib.rs lines
244-246).
The lifetime arguments i and o select which instance of the adapter is
invoked; they have no value-level role, exactly as in the source. -/
def BosImpl.adapter {B τ : Type} (e : BosImpl B τ) (_i _o : Nat)
    (self : RRef B) : RRef τ :=
  refCast (e.bos self)

/-!
Effect model. Every method body in the crate is a single effect-free
expression (`this`, possibly behind a compiler-inserted coercion), so its
state-threading semantics is `pure`. The world record below gives the
model a notion of memory contents and of an allocation counter, so that
the frame theorems rule out something expressible: a body that wrote
memory or allocated would fail them.
-/

/-- Model of the runtime state surrounding a call: memory contents by
address, and a counter of allocations performed so far. -/
structure World where
  mem : Nat → Nat
  allocCount : Nat

/-- A state-passing computation over the world. -/
def Eff (α : Type) : Type := World → α × World

/-- Allocation primitive of the effect model: bumps the allocation counter.
No body in the crate uses it; the frame theorems show they could not. -/
def allocate : Eff Nat :=
  fun w => (w.allocCount, ⟨w.mem, w.allocCount + 1⟩)

/-- Memory-write primitive of the effect model. No body in the crate uses
it; the frame theorems show they could not. -/
def writeMem (a v : Nat) : Eff Unit :=
  fun w => ((), ⟨fun x => if x = a then v else w.mem x, w.allocCount⟩)

/-- State-threading semantics of a `Bos::borrow_or_share` call: each body in
the crate is one effect-free expression, so the call returns the value of
`bos` and passes the world through untouched. -/
def BosImpl.run {B τ : Type} (e : BosImpl B τ) (self : RRef B) :
    Eff (RRef τ) :=
  fun w => (e.bos self, w)

/-- State-threading semantics of an adapter call
(`BorrowOrShare::borrow_or_share`), likewise effect-free. -/
def BosImpl.runAdapter {B τ : Type} (e : BosImpl B τ) (i o : Nat)
    (self : RRef B) : Eff (RRef τ) :=
  fun w => (e.adapter i o self, w)

/-!
The catalog types. Owning buffer types carry the address of their heap
buffer (or are addressed in place, for arrays) together with their
contents; text contents are modelled as lists of characters, C strings and
OS strings as byte lists, so that no standard-library Lean type is
shadowed.
-/

/-- Model of `Vec<α>`: heap buffer address plus elements. -/
structure Vec (α : Type) where
  bufAddr : Nat
  data : List α
deriving DecidableEq

/-- Model of the array type with element type α and length n. Arrays store
their elements in place, so a reference to the array is a reference to the
element storage itself. -/
def ArrayN (α : Type) (n : Nat) : Type := { l : List α // l.length = n }

/-- Model of the owned text buffer type (Rust String): heap buffer address
plus character contents. -/
structure StrBuf where
  bufAddr : Nat
  data : List Char
deriving DecidableEq

/-- Model of the owned C-style text buffer type (CString): heap buffer
address plus byte contents. -/
structure CStrBuf where
  bufAddr : Nat
  data : List Nat
deriving DecidableEq

/-- Model of the owned OS-native text buffer type (OsString): heap buffer
address plus byte contents. -/
structure OsStrBuf where
  bufAddr : Nat
  data : List Nat
deriving DecidableEq

/-- Model of the owned filesystem-path buffer type (PathBuf): heap buffer
address plus byte contents. -/
structure PathBufT where
  bufAddr : Nat
  data : List Nat
deriving DecidableEq

/-- Model of `Box<α>`: heap pointer plus pointed-at value. -/
structure BoxT (α : Type) where
  ptr : Nat
  val : α
deriving DecidableEq

/-- Model of `Rc<α>`: heap pointer plus pointed-at value. -/
structure RcT (α : Type) where
  ptr : Nat
  val : α
deriving DecidableEq

/-- Model of `Arc<α>`: heap pointer plus pointed-at value. -/
structure ArcT (α : Type) where
  ptr : Nat
  val : α
deriving DecidableEq

/-- Model of a Rust mutable reference value: the address it points at plus
the pointed-at value. -/
structure MutRef (α : Type) where
  addr : Nat
  val : α
deriving DecidableEq

/-- Model of `Cow<β>`: either a borrowed reference to a β living elsewhere,
or an owned buffer (address of the owned storage plus its borrowed view). -/
inductive CowT (β : Type) where
  | borrowed (r : RRef β)
  | owned (addr : Nat) (val : β)
deriving DecidableEq

/-!
The catalog of `Bos` impls, translated one Rust impl at a time.

The shared-reference impl is written out at lib.rs lines 249-256:

  impl of Bos of T for the shared reference type with lifetime a:
    type Ref at any index = the shared reference type with lifetime a;
    borrow_or_share(this) = this  (coerced from a reference to a
    reference-to-T into the inner reference-to-T, i.e. the stored
    reference is copied out).

Every other impl comes from the `impl_bos!` macro (lines 258-298), whose
expansion always reads

    type Ref at index i = a shared reference with lifetime i to Target;
    borrow_or_share(this) = this  (coerced from a reference to Self into
    a reference to Target via the deref or unsize coercion of Self).

so each owning-class model below has `refLt` the identity and a `bos`
translating the coercion of that concrete implementer type.
-/

/-- Impl of Bos of τ for a shared reference with lifetime a (lib.rs lines
249-256). The associated `Ref` type is the stored reference type itself,
with lifetime a regardless of the access lifetime; the implementer
satisfies an outlives bound at i exactly when i ≤ a; the body returns the
stored reference value. -/
def sharedRefImpl (τ : Type) (a : Nat) : BosImpl (RRef τ) τ where
  refLt := fun _ => a
  okAt := fun i => decide (i ≤ a)
  bos := fun this => this.content

/-- Impl of Bos of τ for a mutable reference with lifetime a (macro line
280). The coercion reborrows through the mutable reference, yielding a
shared reference at the pointed-at address. -/
def mutRefImpl (τ : Type) (a : Nat) : BosImpl (MutRef τ) τ where
  refLt := fun i => i
  okAt := fun i => decide (i ≤ a)
  bos := fun this => ⟨this.content.addr, this.content.val⟩

/-- Impl of Bos of the slice type for the array type (macro line 282). The
unsize coercion keeps the address of the in-place element storage. -/
def arrayImpl (α : Type) (n : Nat) : BosImpl (ArrayN α n) (List α) where
  refLt := fun i => i
  okAt := fun _ => true
  bos := fun this => ⟨this.addr, this.content.val⟩

/-- Impl of Bos of the slice type for Vec (macro line 283). The deref
coercion yields a slice reference at the heap buffer address. -/
def vecImpl (α : Type) : BosImpl (Vec α) (List α) where
  refLt := fun i => i
  okAt := fun _ => true
  bos := fun this => ⟨this.content.bufAddr, this.content.data⟩

/-- Impl of Bos of the text view for the owned text buffer (macro line
285). -/
def strBufImpl : BosImpl StrBuf (List Char) where
  refLt := fun i => i
  okAt := fun _ => true
  bos := fun this => ⟨this.content.bufAddr, this.content.data⟩

/-- Impl of Bos of the C text view for the owned C text buffer (macro line
286). -/
def cStrBufImpl : BosImpl CStrBuf (List Nat) where
  refLt := fun i => i
  okAt := fun _ => true
  bos := fun this => ⟨this.content.bufAddr, this.content.data⟩

/-- Impl of Bos of the OS text view for the owned OS text buffer (macro
line 289, feature std). -/
def osStrBufImpl : BosImpl OsStrBuf (List Nat) where
  refLt := fun i => i
  okAt := fun _ => true
  bos := fun this => ⟨this.content.bufAddr, this.content.data⟩

/-- Impl of Bos of the path view for the owned path buffer (macro line 291,
feature std). -/
def pathBufImpl : BosImpl PathBufT (List Nat) where
  refLt := fun i => i
  okAt := fun _ => true
  bos := fun this => ⟨this.content.bufAddr, this.content.data⟩

/-- Impl of Bos of τ for Box (macro line 293). The deref coercion follows
the heap pointer. -/
def boxImpl (α : Type) : BosImpl (BoxT α) α where
  refLt := fun i => i
  okAt := fun _ => true
  bos := fun this => ⟨this.content.ptr, this.content.val⟩

/-- Impl of Bos of β for Cow with lifetime parameter x (macro line 294).
There is one static impl for both variants; the deref coercion matches on
the held variant, returning the held reference for the borrowed variant
and the borrow of the owned buffer for the owned variant, in both cases at
the associated type Ref indexed by the access lifetime. -/
def cowImpl (β : Type) (x : Nat) : BosImpl (CowT β) β where
  refLt := fun i => i
  okAt := fun i => decide (i ≤ x)
  bos := fun this =>
    match this.content with
    | .borrowed r => r
    | .owned addr v => ⟨addr, v⟩

/-- Impl of Bos of τ for Rc (macro line 296). -/
def rcImpl (α : Type) : BosImpl (RcT α) α where
  refLt := fun i => i
  okAt := fun _ => true
  bos := fun this => ⟨this.content.ptr, this.content.val⟩

/-- Impl of Bos of τ for Arc (macro line 297). -/
def arcImpl (α : Type) : BosImpl (ArcT α) α where
  refLt := fun i => i
  okAt := fun _ => true
  bos := fun this => ⟨this.content.ptr, this.content.val⟩

/-!
The ordinary borrowing operation of each owning catalog type, as the Rust
standard library defines it. These are the operations the spec compares
against: for Vec the Borrow impl returns the whole-buffer slice, for the
array it returns the in-place element storage, for the text and byte
buffers it returns the view of the heap buffer, for Box, Rc, Arc it
follows the heap pointer, for the mutable reference the reborrow, and for
Cow the variant match of its Deref impl. -/

/-- Ordinary borrow of the target slice from a Vec (std Borrow of slice for
Vec: the whole-buffer slice). -/
def vecStdBorrow (α : Type) (this : RRef (Vec α)) : RRef (List α) :=
  ⟨this.content.bufAddr, this.content.data⟩

/-- Ordinary borrow of the target slice from an array (std Borrow of slice
for the array type: the in-place element storage). -/
def arrayStdBorrow (α : Type) (n : Nat) (this : RRef (ArrayN α n)) :
    RRef (List α) :=
  ⟨this.addr, this.content.val⟩

/-- Ordinary borrow of the text view from the owned text buffer (std
Borrow: the whole-buffer view). -/
def strBufStdBorrow (this : RRef StrBuf) : RRef (List Char) :=
  ⟨this.content.bufAddr, this.content.data⟩

/-- Ordinary borrow of the C text view from the owned C text buffer. -/
def cStrBufStdBorrow (this : RRef CStrBuf) : RRef (List Nat) :=
  ⟨this.content.bufAddr, this.content.data⟩

/-- Ordinary borrow of the OS text view from the owned OS text buffer. -/
def osStrBufStdBorrow (this : RRef OsStrBuf) : RRef (List Nat) :=
  ⟨this.content.bufAddr, this.content.data⟩

/-- Ordinary borrow of the path view from the owned path buffer. -/
def pathBufStdBorrow (this : RRef PathBufT) : RRef (List Nat) :=
  ⟨this.content.bufAddr, this.content.data⟩

/-- Ordinary borrow of the boxed value from a Box (std Borrow: follow the
heap pointer). -/
def boxStdBorrow (α : Type) (this : RRef (BoxT α)) : RRef α :=
  ⟨this.content.ptr, this.content.val⟩

/-- Ordinary reborrow of a mutable reference as a shared reference. -/
def mutRefStdBorrow (α : Type) (this : RRef (MutRef α)) : RRef α :=
  ⟨this.content.addr, this.content.val⟩

/-- Ordinary borrow of the target view from a Cow (std Deref for Cow:
match on the held variant). -/
def cowStdBorrow (β : Type) (this : RRef (CowT β)) : RRef β :=
  match this.content with
  | .borrowed r => r
  | .owned addr v => ⟨addr, v⟩

/-- Ordinary borrow of the shared value from an Rc (std Borrow: follow the
heap pointer). -/
def rcStdBorrow (α : Type) (this : RRef (RcT α)) : RRef α :=
  ⟨this.content.ptr, this.content.val⟩

/-- Ordinary borrow of the shared value from an Arc (std Borrow: follow the
heap pointer). -/
def arcStdBorrow (α : Type) (this : RRef (ArcT α)) : RRef α :=
  ⟨this.content.ptr, this.content.val⟩

/-!
Type-level model of the sealed marker trait `internal::Ref` (lib.rs lines
176-192). A small grammar of Rust type shapes is enough to express that
shapes other than the plain shared reference, such as boxed, optional or
reference-counted forms, do not satisfy the marker. The module `internal`
is private, so the impls of the marker listed in it are all the impls
there are; the inductive predicate below has exactly one rule, mirroring
the single impl `Ref<T> for &T` at line 183.
-/

/-- Grammar of Rust type shapes relevant to the marker trait: an opaque
base type, a shared reference with a lifetime, a mutable reference, a
boxed form, an optional form, and a reference-counted form. -/
inductive RustTy : Type where
  | base (id : Nat)
  | sharedRef (lt : Nat) (t : RustTy)
  | mutableRef (lt : Nat) (t : RustTy)
  | boxed (t : RustTy)
  | optional (t : RustTy)
  | refCounted (t : RustTy)
deriving DecidableEq

/-- The impl set of the sealed marker trait `internal::Ref` (lib.rs lines
176-192): `RefMarker s t` holds when type shape s implements the marker
for target t. The module holds exactly one impl, `Ref<T> for &T` at line
183, so the predicate has exactly one rule. -/
inductive RefMarker : RustTy → RustTy → Prop where
  | sharedRefImplRule (lt : Nat) (t : RustTy) :
      RefMarker (RustTy.sharedRef lt t) t

/-- Type-level model of a `Bos` impl declaration (lib.rs lines 215-226):
the target type, the lifetime-indexed associated family `Ref`, and the
bound that every Ref member satisfies the internal marker, imposed on
every index. -/
structure BosTyDecl where
  target : RustTy
  refTy : Nat → RustTy
  refTyMarker : ∀ i, RefMarker (refTy i) target

/-!
Theorems. Each claim of the specification is settled by one theorem below.
-/

/-- Acceptance pattern of an owning-class impl: the adapter instance at
access lifetime i and requested lifetime o is available whenever the
implementer outlives i and o does not exceed i, and is rejected whenever o
strictly exceeds i. -/
def owningAcceptance {B τ : Type} (e : BosImpl B τ) : Prop :=
  ∀ i o : Nat,
    (e.okAt i = true → o ≤ i → e.avail i o = true) ∧
    (i < o → e.avail i o = false)

/-- Any impl whose Ref family is indexed identically (the shape every
impl_bos-generated impl has) follows the owning acceptance pattern. -/
theorem owningAcceptanceOfId {B τ : Type} (e : BosImpl B τ)
    (h : ∀ i, e.refLt i = i) : owningAcceptance e := by
  intro i o
  constructor
  · intro hok hle
    simp [BosImpl.avail, hok, h, hle]
  · intro hlt
    have hno : ¬ o ≤ i := Nat.not_le.mpr hlt
    simp [BosImpl.avail, h, hno]

/-- C1: for the reference-holding implementer (the shared reference with
lifetime a), the adapter is available both when the requested lifetime
equals the access lifetime i and when it is the full extent a, returning
the identical reference in both cases; for every owning catalog
implementer, the adapter accepts exactly the requested lifetimes not
exceeding the access lifetime and statically rejects every longer
request. -/
theorem c1_widening_law :
    (∀ (τ : Type) (a i : Nat) (b : RRef (RRef τ)), i ≤ a →
      (sharedRefImpl τ a).avail i i = true ∧
      (sharedRefImpl τ a).avail i a = true ∧
      (sharedRefImpl τ a).adapter i i b = (sharedRefImpl τ a).adapter i a b) ∧
    (∀ (α : Type) (a : Nat), owningAcceptance (mutRefImpl α a)) ∧
    (∀ (α : Type) (n : Nat), owningAcceptance (arrayImpl α n)) ∧
    (∀ (α : Type), owningAcceptance (vecImpl α)) ∧
    owningAcceptance strBufImpl ∧
    owningAcceptance cStrBufImpl ∧
    owningAcceptance osStrBufImpl ∧
    owningAcceptance pathBufImpl ∧
    (∀ (α : Type), owningAcceptance (boxImpl α)) ∧
    (∀ (β : Type) (x : Nat), owningAcceptance (cowImpl β x)) ∧
    (∀ (α : Type), owningAcceptance (rcImpl α)) ∧
    (∀ (α : Type), owningAcceptance (arcImpl α)) := by
  refine ⟨?_, ?_, ?_, ?_, ?_, ?_, ?_, ?_, ?_, ?_, ?_, ?_⟩
  · intro τ a i b h
    refine ⟨?_, ?_, rfl⟩
    · simp [BosImpl.avail, sharedRefImpl, h]
    · simp [BosImpl.avail, sharedRefImpl, h]
  · exact fun α a => owningAcceptanceOfId _ (fun _ => rfl)
  · exact fun α n => owningAcceptanceOfId _ (fun _ => rfl)
  · exact fun α => owningAcceptanceOfId _ (fun _ => rfl)
  · exact owningAcceptanceOfId _ (fun _ => rfl)
  · exact owningAcceptanceOfId _ (fun _ => rfl)
  · exact owningAcceptanceOfId _ (fun _ => rfl)
  · exact owningAcceptanceOfId _ (fun _ => rfl)
  · exact fun α => owningAcceptanceOfId _ (fun _ => rfl)
  · exact fun β x => owningAcceptanceOfId _ (fun _ => rfl)
  · exact fun α => owningAcceptanceOfId _ (fun _ => rfl)
  · exact fun α => owningAcceptanceOfId _ (fun _ => rfl)

/-- Witness for C1 at concrete lifetimes: with true extent 5 and access
lifetime 3, the shared-reference adapter is available at requested
lifetimes 3 and 5 with identical results, while the Vec adapter rejects
requested lifetime 4 under access lifetime 3. -/
theorem c1_widening_law_witness :
    ((sharedRefImpl Nat 5).avail 3 3 = true ∧
      (sharedRefImpl Nat 5).avail 3 5 = true ∧
      (sharedRefImpl Nat 5).adapter 3 3 ⟨0, ⟨1, 2⟩⟩ =
        (sharedRefImpl Nat 5).adapter 3 5 ⟨0, ⟨1, 2⟩⟩) ∧
    (vecImpl Nat).avail 3 4 = false :=
  ⟨c1_widening_law.1 Nat 5 3 ⟨0, ⟨1, 2⟩⟩ (by decide),
    (c1_widening_law.2.2.2.1 Nat 3 4).2 (by decide)⟩

/-- C2: the internal cast step is the identity on the reference value, so
for every impl the blanket adapter method returns exactly what the raw
method returns, whenever the adapter instance is available. -/
theorem c2_adapter_is_raw :
    (∀ (τ : Type) (r : RRef τ), refCast r = r) ∧
    (∀ (B τ : Type) (e : BosImpl B τ) (i o : Nat) (b : RRef B),
      e.avail i o = true → e.adapter i o b = e.bos b) :=
  ⟨fun _ _ => rfl, fun _ _ _ _ _ _ _ => rfl⟩

/-- Witness for C2 on a concrete Vec at available lifetimes 2 and 1. -/
theorem c2_adapter_is_raw_witness :
    (vecImpl Nat).avail 2 1 = true ∧
    (vecImpl Nat).adapter 2 1 ⟨0, ⟨7, [1, 2]⟩⟩ =
      (vecImpl Nat).bos ⟨0, ⟨7, [1, 2]⟩⟩ :=
  ⟨by decide,
    c2_adapter_is_raw.2 (Vec Nat) (List Nat) (vecImpl Nat) 2 1 ⟨0, ⟨7, [1, 2]⟩⟩
      (by decide)⟩

/-- C3: for every owning catalog implementer, the raw method returns the
reference (equal by address and by content) that the ordinary borrowing
operation of that type returns on the same value. -/
theorem c3_owning_borrow_agrees :
    (∀ (α : Type) (a : Nat) (b : RRef (MutRef α)),
      (mutRefImpl α a).bos b = mutRefStdBorrow α b) ∧
    (∀ (α : Type) (n : Nat) (b : RRef (ArrayN α n)),
      (arrayImpl α n).bos b = arrayStdBorrow α n b) ∧
    (∀ (α : Type) (b : RRef (Vec α)), (vecImpl α).bos b = vecStdBorrow α b) ∧
    (∀ b, strBufImpl.bos b = strBufStdBorrow b) ∧
    (∀ b, cStrBufImpl.bos b = cStrBufStdBorrow b) ∧
    (∀ b, osStrBufImpl.bos b = osStrBufStdBorrow b) ∧
    (∀ b, pathBufImpl.bos b = pathBufStdBorrow b) ∧
    (∀ (α : Type) (b : RRef (BoxT α)), (boxImpl α).bos b = boxStdBorrow α b) ∧
    (∀ (β : Type) (x : Nat) (b : RRef (CowT β)),
      (cowImpl β x).bos b = cowStdBorrow β b) ∧
    (∀ (α : Type) (b : RRef (RcT α)), (rcImpl α).bos b = rcStdBorrow α b) ∧
    (∀ (α : Type) (b : RRef (ArcT α)), (arcImpl α).bos b = arcStdBorrow α b) :=
  ⟨fun _ _ _ => rfl, fun _ _ _ => rfl, fun _ _ => rfl, fun _ => rfl,
    fun _ => rfl, fun _ => rfl, fun _ => rfl, fun _ _ => rfl,
    fun _ _ _ => rfl, fun _ _ => rfl, fun _ _ => rfl⟩

/-- C4: the shared-reference implementer returns exactly the stored
reference value, and its Ref family member has lifetime a at every index,
independent of the access lifetime. -/
theorem c4_shared_ref_reads_out :
    ∀ (τ : Type) (a : Nat) (b : RRef (RRef τ)),
      (sharedRefImpl τ a).bos b = b.content ∧
      ∀ i, (sharedRefImpl τ a).refLt i = a :=
  fun _ _ _ => ⟨rfl, fun _ => rfl⟩

/-- Totality pattern of an impl: on every access reference, at every pair
of lifetimes, and in every world, a result exists and is returned alike by
the raw method, by the adapter, and by their state-threading runs. -/
def totalOn {B τ : Type} (e : BosImpl B τ) : Prop :=
  ∀ (b : RRef B) (i o : Nat) (w : World),
    ∃ r, e.bos b = r ∧ e.adapter i o b = r ∧
      (e.run b w).1 = r ∧ (e.runAdapter i o b w).1 = r

/-- Every modelled impl is total: its method is a function, defined on all
inputs, with no failing branch. -/
theorem totalOnAny {B τ : Type} (e : BosImpl B τ) : totalOn e :=
  fun b _ _ _ => ⟨e.bos b, rfl, rfl, rfl, rfl⟩

/-- C5: every catalog implementer is total: the raw method and the adapter
always return a result, with no error case. -/
theorem c5_totality :
    (∀ (τ : Type) (a : Nat), totalOn (sharedRefImpl τ a)) ∧
    (∀ (α : Type) (a : Nat), totalOn (mutRefImpl α a)) ∧
    (∀ (α : Type) (n : Nat), totalOn (arrayImpl α n)) ∧
    (∀ (α : Type), totalOn (vecImpl α)) ∧
    totalOn strBufImpl ∧
    totalOn cStrBufImpl ∧
    totalOn osStrBufImpl ∧
    totalOn pathBufImpl ∧
    (∀ (α : Type), totalOn (boxImpl α)) ∧
    (∀ (β : Type) (x : Nat), totalOn (cowImpl β x)) ∧
    (∀ (α : Type), totalOn (rcImpl α)) ∧
    (∀ (α : Type), totalOn (arcImpl α)) :=
  ⟨fun _ _ => totalOnAny _, fun _ _ => totalOnAny _, fun _ _ => totalOnAny _,
    fun _ => totalOnAny _, totalOnAny _, totalOnAny _, totalOnAny _,
    totalOnAny _, fun _ => totalOnAny _, fun _ _ => totalOnAny _,
    fun _ => totalOnAny _, fun _ => totalOnAny _⟩

/-- Inversion of the sealed marker: its single rule forces the implementer
shape to be a shared reference to the target. -/
theorem refMarkerInv (s t : RustTy) (h : RefMarker s t) :
    ∃ lt, s = RustTy.sharedRef lt t := by
  cases h with
  | sharedRefImplRule lt t => exact ⟨lt, rfl⟩

/-- C6: the only type shape satisfying the internal marker for target t is
the shared reference to t; in particular no boxed, optional,
reference-counted or mutable-reference shape satisfies it, and every Bos
declaration therefore has each member of its Ref family structurally a
shared reference to its target. -/
theorem c6_ref_marker_only_shared :
    (∀ (s t : RustTy), RefMarker s t →
      (∃ lt, s = RustTy.sharedRef lt t) ∧
      (∀ u, s ≠ RustTy.boxed u) ∧
      (∀ u, s ≠ RustTy.optional u) ∧
      (∀ u, s ≠ RustTy.refCounted u) ∧
      (∀ lt u, s ≠ RustTy.mutableRef lt u)) ∧
    (∀ (d : BosTyDecl) (i : Nat),
      ∃ lt, d.refTy i = RustTy.sharedRef lt d.target) := by
  constructor
  · intro s t h
    obtain ⟨lt, rfl⟩ := refMarkerInv s t h
    refine ⟨⟨lt, rfl⟩, ?_, ?_, ?_, ?_⟩
    · intro u h2
      simp at h2
    · intro u h2
      simp at h2
    · intro u h2
      simp at h2
    · intro lt2 u h2
      simp at h2
  · intro d i
    exact refMarkerInv _ _ (d.refTyMarker i)

/-- Witness for C6 at a concrete marker derivation: the shape implementing
the marker at lifetime 4 for base target 0 is not a boxed shape. -/
theorem c6_ref_marker_only_shared_witness :
    RustTy.sharedRef 4 (RustTy.base 0) ≠ RustTy.boxed (RustTy.base 0) :=
  (c6_ref_marker_only_shared.1 _ _
    (RefMarker.sharedRefImplRule 4 (RustTy.base 0))).2.1 (RustTy.base 0)

/-- C7: invoking the accessor twice on the same unmodified value, threading
the world through the first call into the second, yields equal references
and leaves the world unchanged; likewise for the adapter. -/
theorem c7_idempotent :
    ∀ (B τ : Type) (e : BosImpl B τ) (b : RRef B) (i o : Nat) (w : World),
      (e.run b w).1 = (e.run b (e.run b w).2).1 ∧
      (e.run b (e.run b w).2).2 = w ∧
      (e.runAdapter i o b w).1 =
        (e.runAdapter i o b (e.runAdapter i o b w).2).1 :=
  fun _ _ _ _ _ _ _ => ⟨rfl, rfl, rfl⟩

/-- C8: the Cow implementer is one static owning-class impl for both held
variants: its Ref family is indexed by the access lifetime alone, any
request beyond the access lifetime is rejected even below the borrowed
extent x, and the value returned is the held view: the borrow of the
owned buffer for the owned variant, the held reference for the borrowed
variant. -/
theorem c8_cow_policy :
    ∀ (β : Type) (x : Nat),
      (∀ i, (cowImpl β x).refLt i = i) ∧
      (∀ i o, i < o → (cowImpl β x).avail i o = false) ∧
      (∀ (p addr2 : Nat) (v : β),
        (cowImpl β x).bos ⟨p, CowT.owned addr2 v⟩ = ⟨addr2, v⟩) ∧
      (∀ (p : Nat) (r : RRef β),
        (cowImpl β x).bos ⟨p, CowT.borrowed r⟩ = r) := by
  intro β x
  refine ⟨fun _ => rfl, ?_, fun _ _ _ => rfl, fun _ _ => rfl⟩
  intro i o h
  have hno : ¬ o ≤ i := Nat.not_le.mpr h
  simp [BosImpl.avail, cowImpl, hno]

/-- Witness for C8: with borrowed extent 9 and access lifetime 2, the
request for lifetime 5 is rejected although 5 is below 9, and the owned
variant holding the two characters of hi yields the view of its own
buffer. -/
theorem c8_cow_policy_witness :
    (cowImpl (List Char) 9).avail 2 5 = false ∧
    (cowImpl (List Char) 9).bos
        ⟨0, CowT.owned 7 [Char.ofNat 104, Char.ofNat 105]⟩ =
      ⟨7, [Char.ofNat 104, Char.ofNat 105]⟩ :=
  ⟨(c8_cow_policy (List Char) 9).2.1 2 5 (by decide),
    (c8_cow_policy (List Char) 9).2.2.1 0 7 [Char.ofNat 104, Char.ofNat 105]⟩

/-- C9: a shared reference with lifetime a implements the capability in
the reference-holding class (its Ref member has lifetime a at every
index), while a mutable reference with the same lifetime implements it in
the owning class (its Ref member is indexed by the access lifetime), so on
otherwise identical inputs the two produce references equal by address and
content but with differing validity scopes at every access lifetime other
than a. -/
theorem c9_classification_asymmetry :
    ∀ (τ : Type) (a : Nat),
      (∀ i, (sharedRefImpl τ a).refLt i = a) ∧
      (∀ i, (mutRefImpl τ a).refLt i = i) ∧
      (∀ i, i ≠ a → (sharedRefImpl τ a).refLt i ≠ (mutRefImpl τ a).refLt i) ∧
      (∀ (p q : Nat) (v : τ),
        (sharedRefImpl τ a).bos ⟨p, ⟨q, v⟩⟩ = ⟨q, v⟩ ∧
        (mutRefImpl τ a).bos ⟨p, ⟨q, v⟩⟩ = ⟨q, v⟩) :=
  fun _ _ =>
    ⟨fun _ => rfl, fun _ => rfl,
      fun _ hne h => hne h.symm,
      fun _ _ _ => ⟨rfl, rfl⟩⟩

/-- Witness for C9 at extent 5 and access lifetime 3: the two Ref family
members differ. -/
theorem c9_classification_asymmetry_witness :
    (sharedRefImpl Nat 5).refLt 3 ≠ (mutRefImpl Nat 5).refLt 3 :=
  (c9_classification_asymmetry Nat 5).2.2.1 3 (by decide)

/-- C10: a call of the raw method or of the adapter leaves the world
untouched: memory contents at every address and the allocation counter are
unchanged, so the call performs no write and no allocation. -/
theorem c10_frame :
    ∀ (B τ : Type) (e : BosImpl B τ) (b : RRef B) (i o : Nat) (w : World),
      (e.run b w).2 = w ∧
      (e.runAdapter i o b w).2 = w ∧
      (∀ a2, ((e.run b w).2).mem a2 = w.mem a2) ∧
      ((e.run b w).2).allocCount = w.allocCount :=
  fun _ _ _ _ _ _ _ => ⟨rfl, rfl, fun _ => rfl, rfl⟩

end BorrowOrExpose
